import Mathlib

/-!
A shallow embedding of the yall logging backend (src/lib.rs): severity
levels and level filters, the saturating verbosity arithmetic, color mode
resolution, the line formatting done by print_log, the write and fallback
behavior of the Log implementation, and the one-shot global registration
done by try_init.  Writes to the stderr stream are modelled as a trace of
operations, with an injected behavior function deciding which operation
attempts fail and with which io error text.
-/

namespace Yall

/- Text is kept as String, with the byte and character operations used by
the Rust code defined structurally over the underlying character list so
that every definition evaluates by kernel reduction.  All literal text the
code manipulates is ASCII, so character counts and Rust byte counts agree
wherever the code slices. -/

/-- True when p is a literal leading piece of s, as str::starts_with. -/
def strStartsWith (s p : String) : Bool := p.data.isPrefixOf s.data

/-- True when p is a literal trailing piece of s, as str::ends_with. -/
def strEndsWith (s p : String) : Bool := p.data.isSuffixOf s.data

/-- Remove the first n characters, as the slice s[n..] on ASCII text. -/
def strDrop (s : String) (n : Nat) : String := ⟨s.data.drop n⟩

/-- Remove the last n characters, as the slice s[..(len - n)] on ASCII text. -/
def strDropRight (s : String) (n : Nat) : String := ⟨s.data.take (s.data.length - n)⟩

/-- Character count of s; equals byte count on the ASCII text sliced here. -/
def strLength (s : String) : Nat := s.data.length

/-- Decimal digits of n, fuel-structured so that it evaluates by reduction. -/
def natToStrAux : Nat → Nat → List Char → List Char
  | 0, _, acc => acc
  | fuel+1, n, acc =>
    let d := Char.ofNat (48 + n % 10)
    if n < 10 then d :: acc else natToStrAux fuel (n / 10) (d :: acc)

/-- Decimal rendering of a line number, as the Rust Display of an unsigned. -/
def natToStr (n : Nat) : String := ⟨natToStrAux (n+1) n []⟩

/-- The single quote character, written by code point. -/
def sq : String := ⟨[Char.ofNat 39]⟩

/-- Severity levels of the log crate; the numeric discriminants run from
Error = 1 to Trace = 5. -/
inductive Level
  | error
  | warn
  | info
  | debug
  | trace
deriving DecidableEq

/-- Numeric discriminant of a log crate Level (repr usize, Error = 1). -/
def Level.toNat : Level → Nat
  | .error => 1
  | .warn => 2
  | .info => 3
  | .debug => 4
  | .trace => 5

/-- Display text of a log crate Level, uppercase as in the log crate. -/
def Level.name : Level → String
  | .error => "ERROR"
  | .warn => "WARN"
  | .info => "INFO"
  | .debug => "DEBUG"
  | .trace => "TRACE"

/-- log LevelFilter; the numeric discriminants run from Off = 0 to Trace = 5. -/
inductive LevelFilter
  | off
  | error
  | warn
  | info
  | debug
  | trace
deriving DecidableEq

/-- LevelFilterExt::to_int from src/lib.rs lines 134 to 143. -/
def LevelFilter.to_int : LevelFilter → Nat
  | .off => 0
  | .error => 1
  | .warn => 2
  | .info => 3
  | .debug => 4
  | .trace => 5

/-- LevelFilterExt::from_int from src/lib.rs lines 123 to 132. -/
def LevelFilter.from_int (val : Nat) : LevelFilter :=
  match val with
  | 0 => LevelFilter.off
  | 1 => LevelFilter.error
  | 2 => LevelFilter.warn
  | 3 => LevelFilter.info
  | 4 => LevelFilter.debug
  | _ => LevelFilter.trace

/-- u8::saturating_add on the u8 range, as Nat with an explicit 255 cap. -/
def u8SaturatingAdd (a b : Nat) : Nat := min (a + b) 255

/-- u8::saturating_sub; Nat subtraction already truncates at zero. -/
def u8SaturatingSub (a b : Nat) : Nat := a - b

/-- LevelFilterExt::add from src/lib.rs lines 145 to 147. -/
def LevelFilter.add (l : LevelFilter) (change : Nat) : LevelFilter :=
  LevelFilter.from_int (u8SaturatingAdd l.to_int change)

/-- LevelFilterExt::sub from src/lib.rs lines 149 to 151. -/
def LevelFilter.sub (l : LevelFilter) (change : Nat) : LevelFilter :=
  LevelFilter.from_int (u8SaturatingSub l.to_int change)

/-- Terminal colors used by the LogColors table. -/
inductive Color
  | red
  | yellow
  | cyan
  | blue
deriving DecidableEq

/-- termcolor ColorSpec restricted to the fields yall sets. -/
structure ColorSpec where
  fg : Option Color
  bold : Bool
deriving DecidableEq

/-- ColorSpec::new: no foreground, not bold. -/
def ColorSpec.new : ColorSpec := ⟨none, false⟩

/-- ColorSpec::set_fg. -/
def ColorSpec.set_fg (c : ColorSpec) (f : Option Color) : ColorSpec := { c with fg := f }

/-- ColorSpec::set_bold. -/
def ColorSpec.set_bold (c : ColorSpec) (b : Bool) : ColorSpec := { c with bold := b }

/-- The per level color table from src/lib.rs lines 76 to 83. -/
structure LogColors where
  error : ColorSpec
  warn : ColorSpec
  info : ColorSpec
  debug : ColorSpec
  trace : ColorSpec
deriving DecidableEq

/-- LogColors::new from src/lib.rs lines 86 to 96. -/
def LogColors.new : LogColors :=
  { error := (ColorSpec.new.set_fg (some .red)).set_bold true
    warn := (ColorSpec.new.set_fg (some .yellow)).set_bold true
    info := ColorSpec.new
    debug := ColorSpec.new.set_fg (some .cyan)
    trace := ColorSpec.new.set_fg (some .blue) }

/-- LogColors::get from src/lib.rs lines 98 to 106. -/
def LogColors.get (c : LogColors) (l : Level) : ColorSpec :=
  match l with
  | .error => c.error
  | .warn => c.warn
  | .info => c.info
  | .debug => c.debug
  | .trace => c.trace

/-- ColorMode from src/lib.rs lines 40 to 48. -/
inductive ColorMode
  | auto
  | always
  | never
deriving DecidableEq

/-- termcolor ColorChoice, restricted to the variants yall produces. -/
inductive ColorChoice
  | auto
  | always
  | never
deriving DecidableEq

/-- The resolved color decision. -/
inductive EffectiveColorChoice
  | enabled
  | disabled
deriving DecidableEq

/-- ColorMode::to_color_choice from src/lib.rs lines 53 to 66; the query of
io::stderr().is_terminal() is an external capability passed as an argument. -/
def ColorMode.to_color_choice (m : ColorMode) (stderrIsTerminal : Bool) : ColorChoice :=
  match m with
  | .auto => if stderrIsTerminal then ColorChoice.auto else ColorChoice.never
  | .always => ColorChoice.always
  | .never => ColorChoice.never

/-- Modelled from the spec: termcolor resolves ColorChoice::Auto by the TERM
and NO_COLOR environment checks when the StandardStream is created, which the
spec folds into one environmentSuppressesColor signal; Always enables and
Never disables unconditionally.  This code lives in the external termcolor
crate, outside src/. -/
def colorChoiceEffective (c : ColorChoice) (environmentSuppressesColor : Bool) :
    EffectiveColorChoice :=
  match c with
  | .always => EffectiveColorChoice.enabled
  | .never => EffectiveColorChoice.disabled
  | .auto =>
    if environmentSuppressesColor then EffectiveColorChoice.disabled
    else EffectiveColorChoice.enabled

/-- The full resolution pipeline: yall maps ColorMode to a ColorChoice using
the terminal query, then the stream construction applies the environment
checks. -/
def resolveColor (m : ColorMode) (isTerminal environmentSuppressesColor : Bool) :
    EffectiveColorChoice :=
  colorChoiceEffective (m.to_color_choice isTerminal) environmentSuppressesColor

/-- The Logger configuration state from src/lib.rs lines 159 to 164; the out
field is the stderr stream handle, modelled externally by operation traces. -/
structure Logger where
  level : LevelFilter
  colors : LogColors
  use_full_filename : Bool
deriving DecidableEq

/-- Logger::with_level from src/lib.rs lines 193 to 200. -/
def Logger.with_level (level : LevelFilter) : Logger :=
  { level := level, colors := LogColors.new, use_full_filename := false }

/-- Logger::new: the default Info level. -/
def Logger.new : Logger := Logger.with_level .info

/-- Logger::with_verbosity from src/lib.rs lines 206 to 208. -/
def Logger.with_verbosity (level : Nat) : Logger :=
  Logger.with_level (LevelFilter.from_int level)

/-- Logger::verbose from src/lib.rs lines 212 to 215. -/
def Logger.verbose (l : Logger) (change : Nat) : Logger :=
  { l with level := l.level.add change }

/-- Logger::quiet from src/lib.rs lines 219 to 222. -/
def Logger.quiet (l : Logger) (change : Nat) : Logger :=
  { l with level := l.level.sub change }

/-- Logger::full_filename from src/lib.rs lines 234 to 237. -/
def Logger.full_filename (l : Logger) (full : Bool) : Logger :=
  { l with use_full_filename := full }

/-- log crate record Metadata: a level plus a target string. -/
structure Metadata where
  level : Level
  target : String
deriving DecidableEq

/-- log crate Record: metadata, message text, and optional location data. -/
structure Record where
  metadata : Metadata
  args : String
  module_path : Option String
  file : Option String
  line : Option Nat
deriving DecidableEq

/-- Record::level. -/
def Record.level (r : Record) : Level := r.metadata.level

/-- Log::enabled from src/lib.rs lines 289 to 291: the log crate compares a
Level against a LevelFilter by numeric discriminant. -/
def Logger.enabled (l : Logger) (m : Metadata) : Bool :=
  decide (m.level.toNat ≤ l.level.to_int)

/-- The filename displayed by print_log, from src/lib.rs lines 257 to 268:
default to a question mark when absent, then strip a leading src/ and a
trailing .rs when the level is Debug or Trace and full filenames are off. -/
def Logger.displayedFilename (l : Logger) (level : Level) (file : Option String) : String :=
  let filename := file.getD "?"
  if l.use_full_filename = false ∧ (level = Level.debug ∨ level = Level.trace) then
    let f1 := if strStartsWith filename "src/" then strDrop filename 4 else filename
    if strEndsWith f1 ".rs" then strDropRight f1 3 else f1
  else filename

/-- The text written by the writeln in print_log, src/lib.rs lines 272 to
282, without the trailing newline. -/
def Logger.renderLine (l : Logger) (r : Record) : String :=
  match r.level with
  | .error => "[ERROR] " ++ r.args
  | .warn => "[WARN] " ++ r.args
  | .info => r.args
  | .debug =>
    "[DEBUG][" ++ l.displayedFilename .debug r.file ++ ":" ++
      natToStr (r.line.getD 0) ++ "] " ++ r.args
  | .trace =>
    "[TRACE][" ++ l.displayedFilename .trace r.file ++ ":" ++
      natToStr (r.line.getD 0) ++ "] " ++ r.args

/-- One attempted operation on the stderr stream.  setColor and reset are the
termcolor styling calls on the locked stream, writeLine is the styled writeln
of a rendered line, eprintLine is an uncolored plain write done through the
process stderr handle by the std eprintln macro. -/
inductive Ev
  | setColor (c : ColorSpec)
  | writeLine (s : String)
  | eprintLine (s : String)
  | reset
deriving DecidableEq

/-- Logger::print_log from src/lib.rs lines 254 to 285, as a trace of the
operations it attempts on the stream.  The behavior ok gives, per attempt
index, none for success or some io error text for failure; each question
mark in the source is an early return, so a failed operation stops the
sequence there.  Returns the trace and none for Ok or some e for Err e. -/
def Logger.print_log (l : Logger) (r : Record) (ok : Nat → Option String) :
    List Ev × Option String :=
  let c := l.colors.get r.level
  match ok 0 with
  | some e => ([.setColor c], some e)
  | none =>
    let line := l.renderLine r
    match ok 1 with
    | some e => ([.setColor c, .writeLine line], some e)
    | none =>
      match ok 2 with
      | some e => ([.setColor c, .writeLine line, .reset], some e)
      | none => ([.setColor c, .writeLine line, .reset], none)

/-- The first fallback line of Log::log, src/lib.rs line 300. -/
def fallbackDiagnostic (e : String) : String :=
  "LOGGING ERROR: failed to write log message because of " ++ sq ++ e ++ sq

/-- The second fallback line of Log::log, src/lib.rs line 301. -/
def fallbackOriginal (r : Record) : String :=
  "Original message: " ++ r.level.name ++ ": " ++ r.args

/-- The message of the std eprint panic raised when a write to stderr fails. -/
def panicText : String := "failed printing to stderr"

/-- Outcome of one Log::log call: normal return, or a panic escaping it. -/
inductive LogOutcome
  | ok
  | panicked (msg : String)
deriving DecidableEq

/-- Log::log from src/lib.rs lines 293 to 303: return silently when the
record is not enabled; otherwise run print_log, and on an Err report through
two eprintln calls.  The std eprintln macro panics when its write to stderr
fails, so a failing fallback write ends the call with a panic; fallback
attempts continue the same attempt numbering on the shared destination. -/
def Logger.log (l : Logger) (r : Record) (ok : Nat → Option String) :
    List Ev × LogOutcome :=
  if l.enabled r.metadata = false then ([], .ok)
  else
    match l.print_log r ok with
    | (tr, none) => (tr, .ok)
    | (tr, some e) =>
      match ok tr.length with
      | some _ => (tr ++ [.eprintLine (fallbackDiagnostic e)], .panicked panicText)
      | none =>
        match ok (tr.length + 1) with
        | some _ =>
          (tr ++ [.eprintLine (fallbackDiagnostic e), .eprintLine (fallbackOriginal r)],
            .panicked panicText)
        | none =>
          (tr ++ [.eprintLine (fallbackDiagnostic e), .eprintLine (fallbackOriginal r)],
            .ok)

/-- Registration failure of the log crate; the spec names it
AlreadyRegisteredError. -/
inductive SetLoggerError
  | alreadyRegistered
deriving DecidableEq

/-- Modelled from the spec: the external facade holds a published
maximum-enabled level cell and a one-shot registration slot for the sole
global record sink; both live in the log crate, outside src/. -/
structure FacadeState where
  max_level : LevelFilter
  registered : Option Logger
deriving DecidableEq

/-- Modelled from the spec: log::set_max_level publishes the given threshold
to the facade level gate, unconditionally. -/
def set_max_level (lv : LevelFilter) (s : FacadeState) : FacadeState :=
  { s with max_level := lv }

/-- Modelled from the spec: log::set_boxed_logger is a one-shot registration
slot; it fails and changes nothing when a logger is already installed, and
installs the given logger otherwise. -/
def set_boxed_logger (l : Logger) (s : FacadeState) :
    FacadeState × Except SetLoggerError Unit :=
  match s.registered with
  | some _ => (s, .error .alreadyRegistered)
  | none => ({ s with registered := some l }, .ok ())

/-- Logger::try_init from src/lib.rs lines 241 to 244: publish the level
first, then attempt the registration. -/
def Logger.try_init (l : Logger) (s : FacadeState) :
    FacadeState × Except SetLoggerError Unit :=
  set_boxed_logger l (set_max_level l.level s)

/-- Spec-side helper following the words of the spec: strip a literal
leading piece once when present, otherwise leave the text unchanged. -/
def stripLeadOnce (s p : String) : String :=
  if strStartsWith s p then strDrop s (strLength p) else s

/-- Spec-side helper following the words of the spec: strip a literal
trailing piece once when present, otherwise leave the text unchanged. -/
def stripTrailOnce (s p : String) : String :=
  if strEndsWith s p then strDropRight s (strLength p) else s

/- Helper lemmas shared by the claim theorems. -/

/-- The to_int image of every level filter is at most five. -/
theorem to_int_le_five (l : LevelFilter) : l.to_int ≤ 5 := by
  cases l <;> decide

/-- Round trip through from_int clamps the verbosity number at five. -/
theorem to_int_from_int (n : Nat) : (LevelFilter.from_int n).to_int = min n 5 := by
  rcases n with _|_|_|_|_|k
  · decide
  · decide
  · decide
  · decide
  · decide
  · show LevelFilter.trace.to_int = min (k + 5) 5
    have h : min (k + 5) 5 = 5 := by omega
    rw [h]
    rfl

/-- from_int is a left inverse of to_int. -/
theorem from_int_to_int (l : LevelFilter) : LevelFilter.from_int l.to_int = l := by
  cases l <;> rfl

/-- print_log always attempts at least the set-style operation. -/
theorem print_log_fst_ne_nil (l : Logger) (r : Record) (ok : Nat → Option String) :
    (l.print_log r ok).1 ≠ [] := by
  unfold Logger.print_log
  rcases h0 : ok 0 with _ | e0
  · rcases h1 : ok 1 with _ | e1
    · rcases h2 : ok 2 with _ | e2 <;> simp [h0, h1, h2]
    · simp [h0, h1]
  · simp [h0]

/-- The trace of one log call is empty exactly when the record is disabled. -/
theorem log_fst_eq_nil_iff (l : Logger) (r : Record) (ok : Nat → Option String) :
    (l.log r ok).1 = [] ↔ l.enabled r.metadata = false := by
  cases hen : l.enabled r.metadata with
  | false => simp [Logger.log, hen]
  | true =>
    simp only [hen, Bool.true_eq_false, iff_false]
    have hne := print_log_fst_ne_nil l r ok
    rcases hp : l.print_log r ok with ⟨tr, res⟩
    rw [hp] at hne
    simp only at hne
    rcases res with _ | e
    · simp [Logger.log, hen, hp, hne]
    · rcases h3 : ok tr.length with _ | e3
      · rcases h4 : ok (tr.length + 1) with _ | e4 <;>
          simp [Logger.log, hen, hp, h3, h4]
      · simp [Logger.log, hen, hp, h3]

/-- C1: for every configured threshold and record severity, the enabled
check returns true exactly when the record severity is at least as severe as
the threshold under the order Off, Error, Warn, Info, Debug, Trace by
numeric discriminant (an Error record passes an Info threshold, a Trace
record does not), and a log call writes to the stream exactly when the check
is true: a disabled record produces no write at all. -/
theorem c1_enabled_gate :
    ∀ (l : Logger) (r : Record) (ok : Nat → Option String) (t : String),
      (l.enabled r.metadata = true ↔ r.metadata.level.toNat ≤ l.level.to_int)
      ∧ ((l.log r ok).1 = [] ↔ l.enabled r.metadata = false)
      ∧ (Logger.with_level .info).enabled ⟨.error, t⟩ = true
      ∧ (Logger.with_level .info).enabled ⟨.trace, t⟩ = false := by
  refine fun l r ok t => ⟨?_, log_fst_eq_nil_iff l r ok, rfl, rfl⟩
  simp [Logger.enabled]

/-- C10: the enabled decision depends only on the record severity level and
the configured threshold; two records sharing a level but differing in
target, message, module path, source location, or stream behavior get the
same enabled answer, and their log calls agree on whether anything is
written. -/
theorem c10_enabled_depends_only_on_level :
    ∀ (l : Logger) (lvl : Level) (t1 t2 msg1 msg2 : String)
      (mp1 mp2 f1 f2 : Option String) (ln1 ln2 : Option Nat)
      (ok1 ok2 : Nat → Option String),
      l.enabled ⟨lvl, t1⟩ = l.enabled ⟨lvl, t2⟩
      ∧ ((l.log ⟨⟨lvl, t1⟩, msg1, mp1, f1, ln1⟩ ok1).1 = [] ↔
          (l.log ⟨⟨lvl, t2⟩, msg2, mp2, f2, ln2⟩ ok2).1 = []) := by
  refine fun l lvl t1 t2 msg1 msg2 mp1 mp2 f1 f2 ln1 ln2 ok1 ok2 => ⟨rfl, ?_⟩
  rw [log_fst_eq_nil_iff, log_fst_eq_nil_iff]
  exact Iff.rfl

/-- C6: with_verbosity maps 0 to Off, 1 to Error, 2 to Warn, 3 to Info, 4 to
Debug, and every number five or more to Trace, the same logger as verbosity
five; and for every starting threshold and every delta, verbose never moves
past Trace and quiet never moves past Off, monotonically and with no
wraparound. -/
theorem c6_verbosity_total_saturating :
    ∀ (l : LevelFilter) (c k : Nat),
      (Logger.with_verbosity 0).level = .off
      ∧ (Logger.with_verbosity 1).level = .error
      ∧ (Logger.with_verbosity 2).level = .warn
      ∧ (Logger.with_verbosity 3).level = .info
      ∧ (Logger.with_verbosity 4).level = .debug
      ∧ (Logger.with_verbosity (k + 5)).level = .trace
      ∧ Logger.with_verbosity (k + 5) = Logger.with_verbosity 5
      ∧ ((Logger.with_level l).verbose c).level = l.add c
      ∧ ((Logger.with_level l).quiet c).level = l.sub c
      ∧ l.to_int ≤ (l.add c).to_int
      ∧ (l.add c).to_int ≤ 5
      ∧ (l.sub c).to_int ≤ l.to_int := by
  refine fun l c k =>
    ⟨rfl, rfl, rfl, rfl, rfl, rfl, rfl, rfl, rfl, ?_, ?_, ?_⟩
  · have h5 := to_int_le_five l
    simp only [LevelFilter.add, u8SaturatingAdd, to_int_from_int]
    omega
  · simp only [LevelFilter.add, u8SaturatingAdd, to_int_from_int]
    omega
  · have h5 := to_int_le_five l
    simp only [LevelFilter.sub, u8SaturatingSub, to_int_from_int]
    omega

/-- C7: verbose then quiet by the same delta restores the original threshold
whenever the addition does not cross the Trace saturation bound, and some
threshold and delta crossing the bound fail to round trip. -/
theorem c7_round_trip :
    ∀ (l : LevelFilter) (c : Nat),
      (l.to_int + c ≤ 5 → (((Logger.with_level l).verbose c).quiet c).level = l)
      ∧ ∃ (l2 : LevelFilter) (c2 : Nat), 5 < l2.to_int + c2
          ∧ (((Logger.with_level l2).verbose c2).quiet c2).level ≠ l2 := by
  refine fun l c => ⟨fun h => ?_, ⟨.debug, 2, by decide, by decide⟩⟩
  show (l.add c).sub c = l
  have ha : (LevelFilter.from_int (u8SaturatingAdd l.to_int c)).to_int = l.to_int + c := by
    simp only [u8SaturatingAdd, to_int_from_int]
    omega
  simp only [LevelFilter.add, LevelFilter.sub, ha, u8SaturatingSub]
  have hc : l.to_int + c - c = l.to_int := by omega
  rw [hc, from_int_to_int]

/-- Witness for c7_round_trip: starting at Error, adding three reaches Debug
without crossing the bound and subtracting three returns to Error. -/
theorem c7_round_trip_witness :
    LevelFilter.error.to_int + 3 ≤ 5
    ∧ (((Logger.with_level .error).verbose 3).quiet 3).level = .error :=
  ⟨by decide, (c7_round_trip .error 3).1 (by decide)⟩

/-- C8: Always resolves to Enabled unconditionally, Never to Disabled
unconditionally, and Auto to Enabled exactly when the stream is a terminal
and the environment does not suppress color; in particular Always with no
terminal resolves Enabled and Auto on a suppressing terminal resolves
Disabled. -/
theorem c8_color_resolution :
    ∀ (t e : Bool),
      resolveColor .always t e = .enabled
      ∧ resolveColor .never t e = .disabled
      ∧ (resolveColor .auto t e = .enabled ↔ (t = true ∧ e = false))
      ∧ resolveColor .always false true = .enabled
      ∧ resolveColor .auto true true = .disabled := by
  decide

/-- C4: the rendered line text is exactly the bracketed uppercase prefix
plus the message for Error and Warn, the message verbatim for Info, and the
bracketed prefix plus displayed location plus the message for Debug and
Trace; the file part defaults to a question mark and the line part to zero
when absent, and the Error, Warn, and Info lines carry no location. -/
theorem c4_rendered_line_text :
    ∀ (l : Logger) (target msg : String) (mp f : Option String) (ln : Option Nat),
      l.renderLine ⟨⟨.error, target⟩, msg, mp, f, ln⟩ = "[ERROR] " ++ msg
      ∧ l.renderLine ⟨⟨.warn, target⟩, msg, mp, f, ln⟩ = "[WARN] " ++ msg
      ∧ l.renderLine ⟨⟨.info, target⟩, msg, mp, f, ln⟩ = msg
      ∧ l.renderLine ⟨⟨.debug, target⟩, msg, mp, f, ln⟩ =
          "[DEBUG][" ++ l.displayedFilename .debug f ++ ":" ++
            natToStr (ln.getD 0) ++ "] " ++ msg
      ∧ l.renderLine ⟨⟨.trace, target⟩, msg, mp, f, ln⟩ =
          "[TRACE][" ++ l.displayedFilename .trace f ++ ":" ++
            natToStr (ln.getD 0) ++ "] " ++ msg
      ∧ (∀ lvl : Level, l.displayedFilename lvl none = "?")
      ∧ l.renderLine ⟨⟨.debug, target⟩, msg, mp, none, none⟩ = "[DEBUG][?:0] " ++ msg
      ∧ l.renderLine ⟨⟨.trace, target⟩, msg, mp, none, none⟩ = "[TRACE][?:0] " ++ msg := by
  intro l target msg mp f ln
  rcases l with ⟨lv, cols, ful⟩
  have hq : ∀ lvl : Level,
      Logger.displayedFilename ⟨lv, cols, ful⟩ lvl none = "?" := by
    intro lvl
    cases ful <;> cases lvl <;> rfl
  refine ⟨rfl, rfl, rfl, rfl, rfl, hq, ?_, ?_⟩
  · have h1 : Logger.renderLine ⟨lv, cols, ful⟩ ⟨⟨.debug, target⟩, msg, mp, none, none⟩ =
        ("[DEBUG][" ++ Logger.displayedFilename ⟨lv, cols, ful⟩ .debug none ++ ":" ++
          natToStr 0 ++ "] ") ++ msg := rfl
    rw [h1, hq .debug]
    exact congrArg (fun x => x ++ msg) (by decide)
  · have h1 : Logger.renderLine ⟨lv, cols, ful⟩ ⟨⟨.trace, target⟩, msg, mp, none, none⟩ =
        ("[TRACE][" ++ Logger.displayedFilename ⟨lv, cols, ful⟩ .trace none ++ ":" ++
          natToStr 0 ++ "] ") ++ msg := rfl
    rw [h1, hq .trace]
    exact congrArg (fun x => x ++ msg) (by decide)

/-- C5: filename shortening applies only to Debug and Trace records and only
with full filenames off; it strips a literal leading src/ piece when present
and a literal trailing .rs piece when present, each independently and each
at most once, and with the option on the filename passes unchanged. -/
theorem c5_filename_shortening :
    ∀ (l : Logger) (f : String) (lvl : Level),
      ((l.full_filename true).displayedFilename lvl (some f) = f)
      ∧ ((l.full_filename false).displayedFilename .error (some f) = f)
      ∧ ((l.full_filename false).displayedFilename .warn (some f) = f)
      ∧ ((l.full_filename false).displayedFilename .info (some f) = f)
      ∧ ((l.full_filename false).displayedFilename .debug (some f) =
          stripTrailOnce (stripLeadOnce f "src/") ".rs")
      ∧ ((l.full_filename false).displayedFilename .trace (some f) =
          stripTrailOnce (stripLeadOnce f "src/") ".rs")
      ∧ (Logger.new).displayedFilename .debug (some "src/app.rs") = "app"
      ∧ ((Logger.new).full_filename true).displayedFilename .debug (some "src/app.rs") =
          "src/app.rs"
      ∧ (Logger.new).displayedFilename .debug (some "lib.rs") = "lib"
      ∧ (Logger.new).displayedFilename .trace (some "src/src/app.rs") = "src/app" := by
  intro l f lvl
  have h4 : strLength "src/" = 4 := rfl
  have h3 : strLength ".rs" = 3 := rfl
  refine ⟨?_, ?_, ?_, ?_, ?_, ?_, by decide, by decide, by decide, by decide⟩
  · cases lvl <;>
      simp [Logger.full_filename, Logger.displayedFilename]
  · simp [Logger.full_filename, Logger.displayedFilename]
  · simp [Logger.full_filename, Logger.displayedFilename]
  · simp [Logger.full_filename, Logger.displayedFilename]
  · simp [Logger.full_filename, Logger.displayedFilename,
      stripLeadOnce, stripTrailOnce, h4, h3]
  · simp [Logger.full_filename, Logger.displayedFilename,
      stripLeadOnce, stripTrailOnce, h4, h3]

/-- C2 counterexample: after an Info logger registers, a failed second
try_init by a Trace logger leaves the first logger installed yet changes the
published maximum-enabled level, because try_init publishes its level before
attempting the registration; the claim that the published level is unchanged
by the failed attempt is false. -/
theorem c2_counterexample :
    ((Logger.with_level .trace).try_init
        ((Logger.with_level .info).try_init ⟨.off, none⟩).1).2
      = .error .alreadyRegistered
    ∧ ((Logger.with_level .trace).try_init
        ((Logger.with_level .info).try_init ⟨.off, none⟩).1).1.registered
      = some (Logger.with_level .info)
    ∧ ((Logger.with_level .trace).try_init
        ((Logger.with_level .info).try_init ⟨.off, none⟩).1).1.max_level
      ≠ (((Logger.with_level .info).try_init ⟨.off, none⟩).1).max_level :=
  ⟨rfl, rfl, by decide⟩

/-- C2 amended: a second try_init after a successful first fails with the
already-registered error and leaves the first logger installed as the sole
sink, but the published maximum-enabled level is updated to the second
logger threshold, since try_init publishes the level before attempting
registration. -/
theorem c2_registration_second_attempt :
    ∀ (m0 : LevelFilter) (l1 l2 : Logger),
      (l1.try_init ⟨m0, none⟩).2 = .ok ()
      ∧ ((l1.try_init ⟨m0, none⟩).1).registered = some l1
      ∧ ((l1.try_init ⟨m0, none⟩).1).max_level = l1.level
      ∧ (l2.try_init (l1.try_init ⟨m0, none⟩).1).2 = .error .alreadyRegistered
      ∧ ((l2.try_init (l1.try_init ⟨m0, none⟩).1).1).registered = some l1
      ∧ ((l2.try_init (l1.try_init ⟨m0, none⟩).1).1).max_level = l2.level :=
  fun _ _ _ => ⟨rfl, rfl, rfl, rfl, rfl, rfl⟩

/-- C3 evaluation at the failing input: with an enabled Info record and a
stream on which every write fails, the styled write path fails, the fallback
eprintln write also fails, and the call ends in the std eprint panic instead
of discarding the error; when only the styled path fails and the fallback
writes succeed, the call does recover by writing the uncolored diagnostic
line and the original level and message to the same destination. -/
theorem c3_fallback_panic_eval :
    (Logger.new).log ⟨⟨.info, "app"⟩, "hello", none, none, none⟩ (fun _ => some "EPIPE") =
      ([.setColor ColorSpec.new, .eprintLine (fallbackDiagnostic "EPIPE")],
        .panicked panicText)
    ∧ (Logger.new).log ⟨⟨.info, "app"⟩, "hello", none, none, none⟩
        (fun i => if i == 0 then some "EPIPE" else none) =
      ([.setColor ColorSpec.new,
        .eprintLine (fallbackDiagnostic "EPIPE"),
        .eprintLine (fallbackOriginal ⟨⟨.info, "app"⟩, "hello", none, none, none⟩)],
        .ok) :=
  ⟨by decide, by decide⟩

/-- C9 counterexample: when the styled writeln fails, print_log returns
early through the question mark operator, so the reset step never occurs on
that write cycle even though the set-style and write steps did; the claim
that the reset step follows every outcome of the intermediate writes is
false. -/
theorem c9_counterexample :
    ((Logger.new).log ⟨⟨.info, "app"⟩, "hello", none, none, none⟩
        (fun i => if i == 1 then some "EIO" else none)).1 =
      [.setColor ColorSpec.new, .writeLine "hello",
        .eprintLine (fallbackDiagnostic "EIO"),
        .eprintLine (fallbackOriginal ⟨⟨.info, "app"⟩, "hello", none, none, none⟩)]
    ∧ Ev.reset ∉ ((Logger.new).log ⟨⟨.info, "app"⟩, "hello", none, none, none⟩
        (fun i => if i == 1 then some "EIO" else none)).1 :=
  ⟨by decide, by decide⟩

/-- C9 amended: for every enabled record, including unstyled Info records,
whenever the set-style and styled write steps both succeed the reset step is
attempted on the same write cycle, whatever its own outcome; when an
intermediate step fails, print_log returns early without a reset. -/
theorem c9_reset_after_successful_write
    (l : Logger) (r : Record) (ok : Nat → Option String)
    (hen : l.enabled r.metadata = true) (h0 : ok 0 = none) (h1 : ok 1 = none) :
    Ev.reset ∈ (l.log r ok).1 := by
  rcases h2 : ok 2 with _ | e2
  · simp [Logger.log, Logger.print_log, hen, h0, h1, h2]
  · rcases h3 : ok 3 with _ | e3
    · rcases h4 : ok 4 with _ | e4 <;>
        simp [Logger.log, Logger.print_log, hen, h0, h1, h2, h3, h4]
    · simp [Logger.log, Logger.print_log, hen, h0, h1, h2, h3]

/-- Witness for c9_reset_after_successful_write at an Info record on a
stream where every write succeeds. -/
theorem c9_reset_witness :
    (Logger.new).enabled ⟨.info, "app"⟩ = true
    ∧ (fun _ : Nat => (none : Option String)) 0 = none
    ∧ (fun _ : Nat => (none : Option String)) 1 = none
    ∧ Ev.reset ∈ ((Logger.new).log ⟨⟨.info, "app"⟩, "hello", none, none, none⟩
        (fun _ => none)).1 :=
  ⟨rfl, rfl, rfl,
    c9_reset_after_successful_write Logger.new ⟨⟨.info, "app"⟩, "hello", none, none, none⟩
      (fun _ => none) rfl rfl rfl⟩

end Yall
